import Mathlib

/-!
# Verification of the Telegram–Twitch subscription-gating bot

Shallow embedding of the two source scripts of the repository:

* `bot_twitch_linker.py` — the complete variant: OAuth viewer/broadcaster
  linking, delegated token lifecycle (`ensure_valid_broadcaster_token`),
  subscription checks (`twitch_check_subscription`,
  `check_and_notify_subscription`), commands (`setgroup`, `checkme`,
  `auditnow`, `auditfull`), and the reconciliation sweep
  (`audit_group_and_kick`).
* `bot.py` — the minimal variant: `save_broadcaster_tokens`,
  `get_valid_broadcaster_token`, and a single combined OAuth callback.

Database rows are modelled as Lean structures, tables as lists of rows, and
each operation as a pure function threading the database state and recording
its externally visible actions (refresh calls, subscription checks, membership
mutations, messages).  Exceptions are modelled with `Except`/explicit error
fields.  All integers (Unix timestamps, IDs) are `Int`, matching Python's
unbounded integers.
-/

namespace TwitchBot

instance {ε α : Type} [DecidableEq ε] [DecidableEq α] : DecidableEq (Except ε α) := fun x y =>
  match x, y with
  | .ok a, .ok b =>
      if h : a = b then .isTrue (by rw [h]) else .isFalse (by intro hc; cases hc; exact h rfl)
  | .error a, .error b =>
      if h : a = b then .isTrue (by rw [h]) else .isFalse (by intro hc; cases hc; exact h rfl)
  | .ok _, .error _ => .isFalse (by intro hc; cases hc)
  | .error _, .ok _ => .isFalse (by intro hc; cases hc)

/-- Python exception kinds that the modelled code can raise. -/
inductive PyExc where
  /-- `NameError`: evaluation of an unbound local name. -/
  | nameError
  /-- `PermissionError("Twitch token unauthorized")`, raised on HTTP 401 by
  `twitch_check_subscription`. -/
  | permissionError
  /-- `aiohttp`/`requests` transport error or `raise_for_status` on a non-2xx
  response (network failure / 5xx). -/
  | clientError
  /-- `RuntimeError` raised by `bot.py` helpers. -/
  | runtimeError
  /-- `TypeError`: subscripting `None` (e.g. a failed `db_fetchone`). -/
  | typeError
deriving Repr, DecidableEq

/-- Body of a successful token-exchange / token-refresh response:
`{access_token, refresh_token?, expires_in?}`.  The optional fields model
`tokens.get(...)` lookups on the JSON dict. -/
structure TokenResponse where
  access_token : String
  refresh_token : Option String
  expires_in : Option Int
deriving Repr, DecidableEq

/-- A row of the `broadcasters` table of `bot_twitch_linker.py`
(the spec's ChannelGrant). -/
structure Broadcaster where
  broadcaster_id : String
  owner_telegram_id : Int
  access_token : String
  refresh_token : String
  token_obtained_at : Int
  token_expires_in : Int
  group_id : Option Int
  invite_link : Option String
deriving Repr, DecidableEq

/-- A row of `oauth_states` (the spec's AuthorizationState). -/
structure OAuthState where
  state : String
  telegram_id : Int
  purpose : String
  created_at : Int
deriving Repr, DecidableEq

/-- A row of `telegram_users` (the spec's ChatIdentity). -/
structure TelegramUser where
  telegram_id : Int
  username : String
  first_name : String
  last_name : String
  linked_twitch_id : Option String
deriving Repr, DecidableEq

/-- A row of `twitch_users` (the spec's StreamingIdentity). -/
structure TwitchUser where
  twitch_id : String
  login : String
  display_name : String
  email : Option String
deriving Repr, DecidableEq

/-- A row of `links`. -/
structure LinkRow where
  telegram_id : Int
  twitch_id : String
  broadcaster_id : Option String
  created_at : Int
deriving Repr, DecidableEq

/-- A row of `group_members` (the spec's GroupMembership). -/
structure GroupMember where
  group_id : Int
  telegram_id : Int
  joined_at : Option Int
  left_at : Option Int
deriving Repr, DecidableEq

/-- A row of `privileged` (the spec's PrivilegedMember). -/
structure PrivRow where
  group_id : Int
  telegram_id : Int
  added_by : Option Int
  note : String
  created_at : Int
deriving Repr, DecidableEq

/-- The whole database of `bot_twitch_linker.py` as lists of rows. -/
structure DB where
  telegram_users : List TelegramUser
  twitch_users : List TwitchUser
  broadcasters : List Broadcaster
  oauth_states : List OAuthState
  links : List LinkRow
  group_members : List GroupMember
  privileged : List PrivRow
deriving Repr, DecidableEq

/-- Python truthiness of a nullable integer column (`if not group_id:`):
`None` and `0` are falsy. -/
def truthyInt : Option Int → Bool
  | none => false
  | some i => i ≠ 0

/-- Python truthiness of a nullable string column (`if not tw_id:` /
`if b_row["invite_link"]:`): `None` and `""` are falsy. -/
def truthyStr : Option String → Bool
  | none => false
  | some s => s ≠ ""

/-! ## Delegated Token Manager — `ensure_valid_broadcaster_token`
(`bot_twitch_linker.py`, lines 575–592) -/

/-- The single SQL `UPDATE broadcasters SET access_token=?, refresh_token=?,
token_obtained_at=?, token_expires_in=? WHERE broadcaster_id=?` issued by a
refresh: one statement carrying the full four-field token tuple. -/
structure TokenWrite where
  access_token : String
  refresh_token : String
  token_obtained_at : Int
  token_expires_in : Int
  broadcaster_id : String
deriving Repr, DecidableEq

/-- Outcome of one call to `ensure_valid_broadcaster_token`: the returned
pair (or the propagated refresh exception), the number of external refresh
calls made, and the database writes issued. -/
structure EnsureValidResult where
  outcome : Except PyExc (String × String)
  refresh_calls : Nat
  writes : List TokenWrite
deriving Repr, DecidableEq

/-- `ensure_valid_broadcaster_token(b_row)`.  `now` is `int(time.time())`;
`refreshResult` is the outcome of the external `twitch_refresh_token` call
(`.error` models a transport failure / `raise_for_status`).  Faithful to the
source: return the stored token when `now < obtained + expires - 120`;
otherwise refresh, falling back to the stored refresh token when the response
omits one and to `expires_in = 3600` when absent, and persist all four token
fields in one `UPDATE`. -/
def ensure_valid_broadcaster_token (now : Int) (refreshResult : Except Unit TokenResponse)
    (b : Broadcaster) : EnsureValidResult :=
  if now < b.token_obtained_at + b.token_expires_in - 120 then
    { outcome := .ok (b.access_token, b.broadcaster_id), refresh_calls := 0, writes := [] }
  else
    match refreshResult with
    | .error _ =>
        { outcome := .error .clientError, refresh_calls := 1, writes := [] }
    | .ok tokens =>
        let access := tokens.access_token
        let refresh := tokens.refresh_token.getD b.refresh_token
        let expires := tokens.expires_in.getD 3600
        { outcome := .ok (access, b.broadcaster_id),
          refresh_calls := 1,
          writes := [⟨access, refresh, now, expires, b.broadcaster_id⟩] }

/-- Apply one token `UPDATE ... WHERE broadcaster_id=?` to a broadcaster row. -/
def applyTokenWrite (b : Broadcaster) (w : TokenWrite) : Broadcaster :=
  if b.broadcaster_id = w.broadcaster_id then
    { b with access_token := w.access_token, refresh_token := w.refresh_token,
             token_obtained_at := w.token_obtained_at, token_expires_in := w.token_expires_in }
  else b

/-- The four token fields of a grant, as one tuple. -/
def tokenTuple (b : Broadcaster) : String × String × Int × Int :=
  (b.access_token, b.refresh_token, b.token_obtained_at, b.token_expires_in)

/-- The grant row after all writes of an `ensure_valid_broadcaster_token` run. -/
def grantAfter (b : Broadcaster) (r : EnsureValidResult) : Broadcaster :=
  r.writes.foldl applyTokenWrite b

/-! ## `bot.py` token manager — `save_broadcaster_tokens`,
`get_valid_broadcaster_token` (`bot.py`, lines 59–94) -/

/-- A row of `bot.py`'s `broadcaster_token` table. -/
structure BroadcasterTokenRow where
  broadcaster_id : String
  access_token : String
  refresh_token : String
  expires_at : Int
deriving Repr, DecidableEq

/-- `save_broadcaster_tokens`: one `INSERT ... ON CONFLICT DO UPDATE`
replacing the whole row; `expires_at = now + expires_in - 60` (60 s margin
baked into the stored expiry), `refresh_token or ""` for a `None` argument is
modelled by the caller always passing a string. -/
def save_broadcaster_tokens (now : Int) (tbl : List BroadcasterTokenRow)
    (broadcaster_id access_token refresh_token : String) (expires_in : Int) :
    List BroadcasterTokenRow :=
  let row : BroadcasterTokenRow :=
    ⟨broadcaster_id, access_token, refresh_token, now + expires_in - 60⟩
  if tbl.any (fun r => r.broadcaster_id = broadcaster_id) then
    tbl.map (fun r => if r.broadcaster_id = broadcaster_id then row else r)
  else
    tbl ++ [row]

/-- Result of `get_valid_broadcaster_token`: the returned pair or raised
exception, the resulting table, and the number of refresh calls. -/
structure GetValidResult where
  outcome : Except PyExc (String × String)
  table : List BroadcasterTokenRow
  refresh_calls : Nat
deriving Repr, DecidableEq

/-- `get_valid_broadcaster_token()`.  `SELECT ... LIMIT 1` is the first row;
within expiry return the stored token; otherwise call the external refresh
(`refreshResult`; `.error` models a response without `access_token`, raised
as `RuntimeError` by `refresh_broadcaster_token`), persist via
`save_broadcaster_tokens` with the old refresh token as fallback, and return
the new access token. -/
def get_valid_broadcaster_token (now : Int) (refreshResult : Except Unit TokenResponse)
    (tbl : List BroadcasterTokenRow) : GetValidResult :=
  match tbl.head? with
  | none => { outcome := .error .runtimeError, table := tbl, refresh_calls := 0 }
  | some row =>
    if now < row.expires_at then
      { outcome := .ok (row.broadcaster_id, row.access_token), table := tbl, refresh_calls := 0 }
    else
      match refreshResult with
      | .error _ => { outcome := .error .runtimeError, table := tbl, refresh_calls := 1 }
      | .ok new =>
          let tbl' := save_broadcaster_tokens now tbl row.broadcaster_id new.access_token
            (new.refresh_token.getD row.refresh_token) (new.expires_in.getD 3600)
          { outcome := .ok (row.broadcaster_id, new.access_token), table := tbl',
            refresh_calls := 1 }

/-! ## Shared DB helpers (SQL statements used by several handlers) -/

/-- Tags for the distinct user-visible messages the modelled handlers send. -/
inductive Msg where
  | linkedAck
  | noChannelConfigured
  | subscribedInvite (link : String)
  | subscribedNoGroup
  | notSubscribed
  | errorChecking
  | setupDone
  | needStartFirst
  | groupLinked
  | setgroupNotInGroup
  | setgroupNoBroadcaster
  | setgroupFailed
deriving Repr, DecidableEq

/-- Fold step selecting a row of maximal `token_obtained_at`. -/
def latestStep (acc : Option Broadcaster) (b : Broadcaster) : Option Broadcaster :=
  match acc with
  | none => some b
  | some m => if m.token_obtained_at < b.token_obtained_at then some b else some m

/-- `SELECT * FROM broadcasters ORDER BY token_obtained_at DESC LIMIT 1`:
a row whose `token_obtained_at` is maximal (first such row in table order;
with a strictly greatest value the tie-breaking choice is irrelevant). -/
def latestBroadcaster (l : List Broadcaster) : Option Broadcaster :=
  l.foldl latestStep none

/-- `... WHERE owner_telegram_id=? ORDER BY token_obtained_at DESC LIMIT 1`. -/
def latestBroadcasterOf (l : List Broadcaster) (owner : Int) : Option Broadcaster :=
  latestBroadcaster (l.filter (fun b => b.owner_telegram_id == owner))

/-- Upsert into `twitch_users` (both the PG `ON CONFLICT DO UPDATE` and the
SQLite `INSERT OR REPLACE` replace every column). -/
def upsertTwitchUser (l : List TwitchUser) (u : TwitchUser) : List TwitchUser :=
  if l.any (fun r => r.twitch_id == u.twitch_id) then
    l.map (fun r => if r.twitch_id == u.twitch_id then u else r)
  else l ++ [u]

/-- `UPDATE telegram_users SET linked_twitch_id=? WHERE telegram_id=?`
(a no-op when no row matches). -/
def setLinkedTwitchId (l : List TelegramUser) (tid : Int) (tw : String) : List TelegramUser :=
  l.map (fun r => if r.telegram_id == tid then { r with linked_twitch_id := some tw } else r)

/-- Upsert into `links` keyed on `(telegram_id, twitch_id)`. -/
def upsertLink (l : List LinkRow) (row : LinkRow) : List LinkRow :=
  if l.any (fun r => r.telegram_id == row.telegram_id && r.twitch_id == row.twitch_id) then
    l.map (fun r =>
      if r.telegram_id == row.telegram_id && r.twitch_id == row.twitch_id then row else r)
  else l ++ [row]

/-- Upsert into `broadcasters` keyed on `broadcaster_id`, replacing the row
with the given one (the merge of preserved columns is computed by the caller,
as in the source SQL). -/
def upsertBroadcaster (l : List Broadcaster) (row : Broadcaster) : List Broadcaster :=
  if l.any (fun r => r.broadcaster_id == row.broadcaster_id) then
    l.map (fun r => if r.broadcaster_id == row.broadcaster_id then row else r)
  else l ++ [row]

/-- `SELECT 1 FROM privileged WHERE group_id=? AND telegram_id=? LIMIT 1`
(`is_privileged`, lines 332–337). -/
def is_privileged (db : DB) (group_id user_id : Int) : Bool :=
  db.privileged.any (fun p => p.group_id == group_id && p.telegram_id == user_id)

/-- Apply the writes of one `ensure_valid_broadcaster_token` run to the
database (`UPDATE broadcasters ... WHERE broadcaster_id=?`), returning the
outcome, the new database, and the refresh-call count. -/
def runEnsureValid (now : Int) (rr : Except Unit TokenResponse) (db : DB) (b : Broadcaster) :
    Except PyExc (String × String) × DB × Nat :=
  let r := ensure_valid_broadcaster_token now rr b
  (r.outcome,
   { db with broadcasters :=
       r.writes.foldl (fun l w => l.map (fun x => applyTokenWrite x w)) db.broadcasters },
   r.refresh_calls)

/-! ## OAuth callbacks (`/twitch/callback`, `/twitch/setup/callback`) -/

/-- Result of the viewer OAuth callback `twitch_callback_user` (lines
450–520): HTTP status (302 models the final `redirect`), resulting database,
messages sent, and the `check_and_notify_subscription` call scheduled on the
bot loop, with its arguments. -/
structure ViewerCallbackResult where
  status : Nat
  db : DB
  messages : List (Int × Msg)
  scheduled_check : Option (Int × String × Broadcaster)
deriving Repr, DecidableEq

/-- `twitch_callback_user`.  `exchange` is the outcome of
`twitch_token_exchange` (`.error` = transport failure / non-2xx, → the outer
`except` → 500); `identity` is the outcome of `twitch_get_self` with the
exchanged token (`.ok none` = empty `data` array → 400). -/
def twitch_callback_user (db : DB) (state code : Option String)
    (exchange : Except Unit TokenResponse) (identity : Except Unit (Option TwitchUser))
    (now : Int) : ViewerCallbackResult :=
  match state, code with
  | some s, some c =>
    if s = "" ∨ c = "" then ⟨400, db, [], none⟩
    else
      match db.oauth_states.find? (fun r => r.state == s) with
      | none => ⟨400, db, [], none⟩
      | some row =>
        if row.purpose ≠ "user_link" then ⟨400, db, [], none⟩
        else
          match exchange with
          | .error _ => ⟨500, db, [], none⟩
          | .ok _ =>
            match identity with
            | .error _ => ⟨500, db, [], none⟩
            | .ok none => ⟨400, db, [], none⟩
            | .ok (some me) =>
              let telegram_id := row.telegram_id
              let db1 := { db with twitch_users := upsertTwitchUser db.twitch_users me }
              let db2 := { db1 with
                telegram_users := setLinkedTwitchId db1.telegram_users telegram_id me.twitch_id }
              let db3 := { db2 with
                links := upsertLink db2.links ⟨telegram_id, me.twitch_id, none, now⟩ }
              match latestBroadcaster db3.broadcasters with
              | none =>
                  ⟨302, db3, [(telegram_id, .linkedAck), (telegram_id, .noChannelConfigured)],
                   none⟩
              | some b =>
                  ⟨302, db3, [(telegram_id, .linkedAck)], some (telegram_id, me.twitch_id, b)⟩
  | _, _ => ⟨400, db, [], none⟩

/-- Result of the broadcaster OAuth callback `twitch_callback_setup`
(lines 522–569). -/
structure SetupCallbackResult where
  status : Nat
  db : DB
  messages : List (Int × Msg)
deriving Repr, DecidableEq

/-- `twitch_callback_setup`.  On the SQLite path the stored row is
`INSERT OR REPLACE ... VALUES (..., COALESCE((SELECT group_id FROM
broadcasters WHERE broadcaster_id=?), NULL), COALESCE((SELECT invite_link
...), NULL))`; the PG path computes the same values via
`COALESCE(broadcasters.group_id, EXCLUDED.group_id)` with `EXCLUDED` null —
both preserve an existing `group_id`/`invite_link` and replace every other
column.  `refresh_token or ""` stores `""` when the exchange omits one. -/
def twitch_callback_setup (db : DB) (state code : Option String)
    (exchange : Except Unit TokenResponse) (identity : Except Unit (Option TwitchUser))
    (now : Int) : SetupCallbackResult :=
  match state, code with
  | some s, some c =>
    if s = "" ∨ c = "" then ⟨400, db, []⟩
    else
      match db.oauth_states.find? (fun r => r.state == s) with
      | none => ⟨400, db, []⟩
      | some row =>
        if row.purpose ≠ "broadcaster_setup" then ⟨400, db, []⟩
        else
          match exchange with
          | .error _ => ⟨500, db, []⟩
          | .ok tokens =>
            match identity with
            | .error _ => ⟨500, db, []⟩
            | .ok none => ⟨400, db, []⟩
            | .ok (some me) =>
              let owner := row.telegram_id
              let old := db.broadcasters.find? (fun r => r.broadcaster_id == me.twitch_id)
              let newRow : Broadcaster :=
                { broadcaster_id := me.twitch_id
                  owner_telegram_id := owner
                  access_token := tokens.access_token
                  refresh_token := tokens.refresh_token.getD ""
                  token_obtained_at := now
                  token_expires_in := tokens.expires_in.getD 3600
                  group_id := old.bind (fun r => r.group_id)
                  invite_link := old.bind (fun r => r.invite_link) }
              ⟨302, { db with broadcasters := upsertBroadcaster db.broadcasters newRow },
               [(owner, .setupDone)]⟩
  | _, _ => ⟨400, db, []⟩

/-! ## `setgroup` command (lines 709–727) -/

/-- Result of `setgroup_cmd`: database and the reply sent. -/
structure SetgroupResult where
  db : DB
  reply : Msg
deriving Repr, DecidableEq

/-- `setgroup_cmd`, run by `user_id` in chat `chat_id`.  `inviteResult` is the
outcome of `create_chat_invite_link` (`.error` = the `except` branch). -/
def setgroup_cmd (db : DB) (chat_id : Int) (isGroupChat : Bool) (user_id : Int)
    (inviteResult : Except Unit String) : SetgroupResult :=
  if ¬ isGroupChat then ⟨db, .setgroupNotInGroup⟩
  else
    match latestBroadcasterOf db.broadcasters user_id with
    | none => ⟨db, .setgroupNoBroadcaster⟩
    | some b =>
      match inviteResult with
      | .error _ => ⟨db, .setgroupFailed⟩
      | .ok link =>
        ⟨{ db with broadcasters := db.broadcasters.map (fun r =>
             if r.broadcaster_id == b.broadcaster_id then
               { r with group_id := some chat_id, invite_link := some link }
             else r) },
         .groupLinked⟩

/-! ## Subscription Oracle and `check_and_notify_subscription` -/

/-- Failure kinds of `twitch_check_subscription`: HTTP 401 raises
`PermissionError` (unauthorized); a transport error or non-2xx raises an
`aiohttp` client error (oracle unavailable). -/
inductive OracleFail where
  | unauthorized
  | unavailable
deriving Repr, DecidableEq

/-- The remote `/helix/subscriptions` endpoint, as a function of
`(access_token, broadcaster_id, user_id)`. -/
def Oracle : Type := String → String → String → Except OracleFail Bool

/-- `create_or_get_invite_link(b_row)` (lines 594–606): `None` when the grant
has no (truthy) bound group; the cached link when (truthily) present;
otherwise create one and cache it on the grant. -/
def create_or_get_invite_link (db : DB) (mkInvite : Except Unit String) (b_row : Broadcaster) :
    Option String × DB :=
  if ¬ truthyInt b_row.group_id then (none, db)
  else if truthyStr b_row.invite_link then (b_row.invite_link, db)
  else
    match mkInvite with
    | .error _ => (none, db)
    | .ok link =>
        (some link,
         { db with broadcasters := db.broadcasters.map (fun r =>
             if r.broadcaster_id == b_row.broadcaster_id then { r with invite_link := some link }
             else r) })

/-- Result of `check_and_notify_subscription`: resulting database, number of
external refresh calls, every `twitch_check_subscription` call made (with its
access token, broadcaster and user), messages sent, and the exception
escaping the coroutine uncaught, if any. -/
structure CheckNotifyResult where
  db : DB
  refresh_calls : Nat
  checks : List (String × String × String)
  messages : List (Int × Msg)
  escaped : Option PyExc
deriving Repr, DecidableEq

/-- The notification tail of `check_and_notify_subscription` (lines 621–628),
which uses the *original* `b_row` argument for the invite link. -/
def notifySubResult (db : DB) (mkInvite : Except Unit String) (b_row : Broadcaster)
    (telegram_id : Int) (is_sub : Bool) : DB × List (Int × Msg) :=
  if is_sub then
    match create_or_get_invite_link db mkInvite b_row with
    | (some link, db') => (db', [(telegram_id, .subscribedInvite link)])
    | (none, db') => (db', [(telegram_id, .subscribedNoGroup)])
  else (db, [(telegram_id, .notSubscribed)])

/-- `check_and_notify_subscription` (lines 608–628).  Control flow of the
source: the `try` body runs `ensure_valid_broadcaster_token` then the
subscription check; `except PermissionError` re-fetches the grant row, runs
`ensure_valid_broadcaster_token` on it and retries the check once — any
exception raised inside this handler is *not* caught by the sibling
`except Exception` clause and escapes the coroutine; `except Exception`
(refresh failure or oracle unavailability in the `try` body) sends the
error notice and returns.  `rr1`/`rr2` are the outcomes of the at most two
external refresh calls. -/
def check_and_notify_subscription (now : Int) (rr1 rr2 : Except Unit TokenResponse)
    (oracle : Oracle) (mkInvite : Except Unit String) (db : DB)
    (telegram_id : Int) (twitch_user_id : String) (b_row : Broadcaster) : CheckNotifyResult :=
  match runEnsureValid now rr1 db b_row with
  | (.error _, db1, n1) =>
      { db := db1, refresh_calls := n1, checks := [],
        messages := [(telegram_id, .errorChecking)], escaped := none }
  | (.ok (access, bid), db1, n1) =>
      match oracle access bid twitch_user_id with
      | .ok is_sub =>
          let r := notifySubResult db1 mkInvite b_row telegram_id is_sub
          { db := r.1, refresh_calls := n1, checks := [(access, bid, twitch_user_id)],
            messages := r.2, escaped := none }
      | .error .unavailable =>
          { db := db1, refresh_calls := n1, checks := [(access, bid, twitch_user_id)],
            messages := [(telegram_id, .errorChecking)], escaped := none }
      | .error .unauthorized =>
          match db1.broadcasters.find? (fun r => r.broadcaster_id == b_row.broadcaster_id) with
          | none =>
              { db := db1, refresh_calls := n1, checks := [(access, bid, twitch_user_id)],
                messages := [], escaped := some .typeError }
          | some b2 =>
            match runEnsureValid now rr2 db1 b2 with
            | (.error e, db2, n2) =>
                { db := db2, refresh_calls := n1 + n2,
                  checks := [(access, bid, twitch_user_id)], messages := [],
                  escaped := some e }
            | (.ok (a2, bid2), db2, n2) =>
              match oracle a2 bid2 twitch_user_id with
              | .error .unauthorized =>
                  { db := db2, refresh_calls := n1 + n2,
                    checks := [(access, bid, twitch_user_id), (a2, bid2, twitch_user_id)],
                    messages := [], escaped := some .permissionError }
              | .error .unavailable =>
                  { db := db2, refresh_calls := n1 + n2,
                    checks := [(access, bid, twitch_user_id), (a2, bid2, twitch_user_id)],
                    messages := [], escaped := some .clientError }
              | .ok is_sub =>
                  let r := notifySubResult db2 mkInvite b_row telegram_id is_sub
                  { db := r.1, refresh_calls := n1 + n2,
                    checks := [(access, bid, twitch_user_id), (a2, bid2, twitch_user_id)],
                    messages := r.2, escaped := none }

/-! ## `checkme` command (lines 729–739) -/

/-- Result of `checkme_cmd`: database, all subscription checks made, messages
(command replies and notification messages merged in order), the broadcaster
row the check was run against (if any), and any escaping exception. -/
structure CheckmeResult where
  db : DB
  checks : List (String × String × String)
  messages : List (Int × Msg)
  target : Option Broadcaster
  escaped : Option PyExc
deriving Repr, DecidableEq

/-- `checkme_cmd`, run by `user_id`. -/
def checkme_cmd (now : Int) (rr1 rr2 : Except Unit TokenResponse) (oracle : Oracle)
    (mkInvite : Except Unit String) (db : DB) (user_id : Int) : CheckmeResult :=
  let linked := (db.telegram_users.find? (fun r => r.telegram_id == user_id)).bind
    (fun r => r.linked_twitch_id)
  if ¬ truthyStr linked then
    { db := db, checks := [], messages := [(user_id, .needStartFirst)], target := none,
      escaped := none }
  else
    match latestBroadcaster db.broadcasters with
    | none =>
        { db := db, checks := [], messages := [(user_id, .noChannelConfigured)], target := none,
          escaped := none }
    | some b =>
        let r := check_and_notify_subscription now rr1 rr2 oracle mkInvite db user_id
          (linked.getD "") b
        { db := r.db, checks := r.checks, messages := r.messages, target := some b,
          escaped := r.escaped }

/-! ## Reconciliation Engine — `audit_group_and_kick` (lines 1002–1062) -/

/-- One row of the candidate query
`SELECT gm.telegram_id, tu.linked_twitch_id FROM group_members gm LEFT JOIN
telegram_users tu ON gm.telegram_id = tu.telegram_id WHERE gm.group_id=? AND
gm.left_at IS NULL`. -/
structure AuditCandidate where
  telegram_id : Int
  linked_twitch_id : Option String
deriving Repr, DecidableEq

/-- The candidate rows of the sweep (source lines 1007–1013). -/
def auditCandidates (db : DB) (gid : Int) : List AuditCandidate :=
  (db.group_members.filter (fun g => g.group_id == gid && g.left_at.isNone)).map
    (fun g =>
      ⟨g.telegram_id,
       (db.telegram_users.find? (fun t => t.telegram_id == g.telegram_id)).bind
         (fun t => t.linked_twitch_id)⟩)

/-- One iteration of the sweep loop (source lines 1022–1060).  The body's
first statement, `if await is_privileged(chat.id, uid):` (line 1026), reads
the names `chat` and `uid`, neither of which is bound in
`audit_group_and_kick` (its locals are `group_id`, `rows`, `kicked`,
`access`, `broadcaster_id`, `r`, `tg_id`, `tw_id`, and there is no module
global of either name), so evaluating `chat` raises `NameError`.  The lookup
sits *before* the per-candidate `try:` block of line 1029, so the exception
propagates out of the loop and out of the function; the remainder of the
body (lines 1029–1060) is unreachable. -/
def auditLoopStep (r : AuditCandidate) : Except PyExc Unit :=
  .error .nameError

/-- The sweep loop: folds `auditLoopStep` over the candidate rows, stopping
at the first raised exception. -/
def auditLoop : List AuditCandidate → Nat → DB → Except PyExc Nat × DB
  | [], kicked, db => (.ok kicked, db)
  | r :: rest, kicked, db =>
      match auditLoopStep r with
      | .error e => (.error e, db)
      | .ok _ => auditLoop rest kicked db

/-- Result of `audit_group_and_kick`: the returned removal count or the
propagated exception, the resulting database, and the refresh-call count. -/
structure AuditResult where
  outcome : Except PyExc Nat
  db : DB
  refresh_calls : Nat
deriving Repr, DecidableEq

/-- `audit_group_and_kick(context, b_row)`: return 0 for a falsy
`group_id` or an empty candidate set; otherwise run
`ensure_valid_broadcaster_token` once (an exception there propagates) and
enter the loop. -/
def audit_group_and_kick (now : Int) (rr : Except Unit TokenResponse) (db : DB)
    (b_row : Broadcaster) : AuditResult :=
  if ¬ truthyInt b_row.group_id then ⟨.ok 0, db, 0⟩
  else
    let gid := b_row.group_id.getD 0
    let rows := auditCandidates db gid
    if rows.isEmpty then ⟨.ok 0, db, 0⟩
    else
      match runEnsureValid now rr db b_row with
      | (.error e, db1, n1) => ⟨.error e, db1, n1⟩
      | (.ok _, db1, n1) =>
          let r := auditLoop rows 0 db1
          ⟨r.1, r.2, n1⟩

/-! ## Full sweep — `auditfull_cmd` (lines 773–854) -/

/-- Telegram chat-member statuses relevant to the audit. -/
inductive MemberStatus where
  | member
  | restricted
  | administrator
  | owner
  | leftChat
  | kickedOut
deriving Repr, DecidableEq

/-- `get_chat_member` as a function of the user id; `none` models a
`BadRequest` (user never seen). -/
def StatusMap : Type := Int → Option MemberStatus

/-- The candidate id set of `auditfull_cmd` (lines 786–792): members seen in
the group and not marked left, everyone who ran `/start`, and everyone with a
link row.  Python iterates a `set` in unspecified order; the model uses the
deduplicated ids in ascending order (which members end up kicked does not
depend on the order for the scenarios proved below). -/
def auditfullCandidates (db : DB) (gid : Int) : List Int :=
  ((((db.group_members.filter (fun g => g.group_id == gid && g.left_at.isNone)).map
        (fun g => g.telegram_id))
      ++ db.telegram_users.map (fun t => t.telegram_id)
      ++ db.links.map (fun l => l.telegram_id)).dedup).insertionSort (fun a b => a ≤ b)

/-- The presence filter of `auditfull_cmd` (lines 795–808): keep ids whose
live status is member/restricted/administrator/owner; a `BadRequest` skips
the id. -/
def auditfullPresent (statuses : StatusMap) (l : List Int) : List Int :=
  l.filter (fun uid =>
    match statuses uid with
    | some .member | some .restricted | some .administrator | some .owner => true
    | _ => false)

/-- Loop-carried state of the second `auditfull_cmd` loop: the database, the
current `access`/`broadcaster_id` pair (reassigned by the in-loop refresh on
`PermissionError`), the kick counter, the kicked ids, and the subscription
checks made. -/
structure AuditfullState where
  db : DB
  access : String
  bid : String
  kicked : Nat
  kickedIds : List Int
  checks : List (String × String × String)
deriving Repr, DecidableEq

/-- The remove-then-allow-rejoin mutation (ban + unban, modelled as
succeeding) followed by `UPDATE group_members SET left_at=? ...` and
`kicked += 1`. -/
def auditfullKick (now : Int) (gid : Int) (st : AuditfullState) (uid : Int) : AuditfullState :=
  { st with
    db := { st.db with group_members := st.db.group_members.map (fun g =>
      if g.group_id == gid && g.telegram_id == uid then { g with left_at := some now } else g) },
    kicked := st.kicked + 1,
    kickedIds := st.kickedIds ++ [uid] }

/-- One iteration of the second `auditfull_cmd` loop (lines 813–852) for user
`uid`: skip on `BadRequest` or admin/owner status; kick if the user has no
truthy `linked_twitch_id`; otherwise check the subscription, with the
`except PermissionError` re-fetch/refresh/retry (whose own failures are
caught by the outer `except` and skip the candidate) and kick when not
subscribed. -/
def auditfullStep (now : Int) (rr2 : Except Unit TokenResponse) (oracle : Oracle)
    (statuses : StatusMap) (gid : Int) (origBid : String) (st : AuditfullState) (uid : Int) :
    AuditfullState :=
  match statuses uid with
  | none => st
  | some .administrator => st
  | some .owner => st
  | some _ =>
    let tw := (st.db.telegram_users.find? (fun t => t.telegram_id == uid)).bind
      (fun t => t.linked_twitch_id)
    if ¬ truthyStr tw then auditfullKick now gid st uid
    else
      let twid := tw.getD ""
      match oracle st.access st.bid twid with
      | .ok ok =>
          let st := { st with checks := st.checks ++ [(st.access, st.bid, twid)] }
          if ok then st else auditfullKick now gid st uid
      | .error .unavailable =>
          { st with checks := st.checks ++ [(st.access, st.bid, twid)] }
      | .error .unauthorized =>
          let st1 := { st with checks := st.checks ++ [(st.access, st.bid, twid)] }
          match st1.db.broadcasters.find? (fun r => r.broadcaster_id == origBid) with
          | none => st1
          | some b2 =>
            match runEnsureValid now rr2 st1.db b2 with
            | (.error _, db2, _) => { st1 with db := db2 }
            | (.ok (a2, bid2), db2, _) =>
              let st2 := { st1 with db := db2, access := a2, bid := bid2 }
              match oracle a2 bid2 twid with
              | .error _ => { st2 with checks := st2.checks ++ [(a2, bid2, twid)] }
              | .ok ok =>
                  let st3 := { st2 with checks := st2.checks ++ [(a2, bid2, twid)] }
                  if ok then st3 else auditfullKick now gid st3 uid

/-- Result of `auditfull_cmd`. -/
structure AuditfullResult where
  outcome : Except PyExc Nat
  db : DB
  kickedIds : List Int
  checks : List (String × String × String)
deriving Repr, DecidableEq

/-- `auditfull_cmd`, run inside group `chat_id`: find the broadcaster bound
to *this* group (`WHERE group_id=? LIMIT 1`), build the candidate set,
filter by live presence, run `ensure_valid_broadcaster_token` once (an
exception there propagates), then process every present candidate.  No step
of the loop consults the `privileged` table. -/
def auditfull_cmd (now : Int) (rr1 rr2 : Except Unit TokenResponse) (oracle : Oracle)
    (statuses : StatusMap) (db : DB) (chat_id : Int) (isGroupChat : Bool) : AuditfullResult :=
  if ¬ isGroupChat then ⟨.ok 0, db, [], []⟩
  else
    match db.broadcasters.find? (fun r => r.group_id == some chat_id) with
    | none => ⟨.ok 0, db, [], []⟩
    | some b =>
      let present := auditfullPresent statuses (auditfullCandidates db chat_id)
      match runEnsureValid now rr1 db b with
      | (.error e, db1, _) => ⟨.error e, db1, [], []⟩
      | (.ok (access, bid), db1, _) =>
          let final := present.foldl
            (auditfullStep now rr2 oracle statuses chat_id b.broadcaster_id)
            ⟨db1, access, bid, 0, [], []⟩
          ⟨.ok final.kicked, final.db, final.kickedIds, final.checks⟩

/-! ## Helper lemmas -/

theorem ensure_valid_ok_bid (now : Int) (rr : Except Unit TokenResponse) (b : Broadcaster)
    (p : String × String) (h : (ensure_valid_broadcaster_token now rr b).outcome = .ok p) :
    p.2 = b.broadcaster_id := by
  unfold ensure_valid_broadcaster_token at h
  split at h
  · cases h; rfl
  · cases rr with
    | error e => simp at h
    | ok t => cases h; rfl

theorem runEnsureValid_ok_bid (now : Int) (rr : Except Unit TokenResponse) (db : DB)
    (b : Broadcaster) (p : String × String) (h : (runEnsureValid now rr db b).1 = .ok p) :
    p.2 = b.broadcaster_id :=
  ensure_valid_ok_bid now rr b p h

theorem find?_broadcaster_id (l : List Broadcaster) (key : String) (b : Broadcaster)
    (h : l.find? (fun r => r.broadcaster_id == key) = some b) : b.broadcaster_id = key := by
  have := List.find?_some h
  exact eq_of_beq (by simpa using this)

/-- All subscription checks made by `check_and_notify_subscription` name the
broadcaster of the grant row it was given. -/
theorem check_and_notify_checks_bid (now : Int) (rr1 rr2 : Except Unit TokenResponse)
    (oracle : Oracle) (mkInvite : Except Unit String) (db : DB) (telegram_id : Int)
    (twitch_user_id : String) (b_row : Broadcaster) :
    ∀ chk ∈ (check_and_notify_subscription now rr1 rr2 oracle mkInvite db telegram_id
        twitch_user_id b_row).checks, chk.2.1 = b_row.broadcaster_id := by
  unfold check_and_notify_subscription
  split
  · intro chk hchk; simp at hchk
  · rename_i access bid db1 n1 heq1
    have hbid : bid = b_row.broadcaster_id := by
      have := runEnsureValid_ok_bid now rr1 db b_row (access, bid) (by rw [heq1])
      simpa using this
    split
    · intro chk hchk
      simp only [List.mem_singleton] at hchk
      subst hchk; exact hbid
    · intro chk hchk
      simp only [List.mem_singleton] at hchk
      subst hchk; exact hbid
    · split
      · intro chk hchk
        simp only [List.mem_singleton] at hchk
        subst hchk; exact hbid
      · rename_i b2 hfind
        have hb2 : b2.broadcaster_id = b_row.broadcaster_id :=
          find?_broadcaster_id _ _ _ hfind
        split
        · intro chk hchk
          simp only [List.mem_singleton] at hchk
          subst hchk; exact hbid
        · rename_i a2 bid2 db2 n2 heq2
          have hbid2 : bid2 = b_row.broadcaster_id := by
            have := runEnsureValid_ok_bid now rr2 _ b2 (a2, bid2) (by rw [heq2])
            simpa [hb2] using this
          split
          · intro chk hchk
            rcases List.mem_pair.mp hchk with h | h <;> subst h
            · exact hbid
            · exact hbid2
          · intro chk hchk
            rcases List.mem_pair.mp hchk with h | h <;> subst h
            · exact hbid
            · exact hbid2
          · intro chk hchk
            rcases List.mem_pair.mp hchk with h | h <;> subst h
            · exact hbid
            · exact hbid2

/-! ## Claim theorems -/

/-- C2.  For every stored grant, `ensure_valid_broadcaster_token` returns the
stored access token unchanged, with no refresh call and no database write,
exactly when `now < token_obtained_at + token_ttl_seconds - 120` (the 120 s
safety margin of the source); otherwise it makes exactly one external
refresh call, and on a successful response persists the refreshed tuple and
returns the refreshed token. -/
theorem ensure_valid_ttl_gate (now : Int) (rr : Except Unit TokenResponse) (b : Broadcaster) :
    (now < b.token_obtained_at + b.token_expires_in - 120 →
      ensure_valid_broadcaster_token now rr b =
        ⟨.ok (b.access_token, b.broadcaster_id), 0, []⟩)
    ∧ (¬ now < b.token_obtained_at + b.token_expires_in - 120 →
      (ensure_valid_broadcaster_token now rr b).refresh_calls = 1
      ∧ ∀ t, rr = .ok t →
        ensure_valid_broadcaster_token now rr b =
          ⟨.ok (t.access_token, b.broadcaster_id), 1,
           [⟨t.access_token, t.refresh_token.getD b.refresh_token, now,
             t.expires_in.getD 3600, b.broadcaster_id⟩]⟩) := by
  refine ⟨fun h => ?_, fun h => ⟨?_, ?_⟩⟩
  · simp [ensure_valid_broadcaster_token, h]
  · cases rr <;> simp [ensure_valid_broadcaster_token, h]
  · intro t ht; subst ht; simp [ensure_valid_broadcaster_token, h]

/-- Witness for C2: both branches at concrete grants. -/
theorem ensure_valid_ttl_gate_witness :
    ensure_valid_broadcaster_token 500 (.ok ⟨"na", some "nr", some 7200⟩)
        ⟨"chan", 7, "acc", "ref", 0, 1000, none, none⟩ =
      ⟨.ok ("acc", "chan"), 0, []⟩
    ∧ ensure_valid_broadcaster_token 900 (.ok ⟨"na", some "nr", some 7200⟩)
        ⟨"chan", 7, "acc", "ref", 0, 1000, none, none⟩ =
      ⟨.ok ("na", "chan"), 1, [⟨"na", "nr", 900, 7200, "chan"⟩]⟩ := by
  constructor
  · exact (ensure_valid_ttl_gate 500 _ _).1 (by norm_num)
  · exact ((ensure_valid_ttl_gate 900 _ _).2 (by norm_num)).2 _ rfl

/-- C3.  A refresh whose response omits `refresh_token` writes back the
previously stored refresh token, in both variants: the write issued by
`ensure_valid_broadcaster_token` carries `b.refresh_token`, and the row
stored by `get_valid_broadcaster_token` via `save_broadcaster_tokens`
carries the old row's `refresh_token`. -/
theorem refresh_without_rotation_preserves_token (now : Int) (b : Broadcaster)
    (t : TokenResponse) (hexp : ¬ now < b.token_obtained_at + b.token_expires_in - 120)
    (hnone : t.refresh_token = none)
    (row : BroadcasterTokenRow) (rest : List BroadcasterTokenRow)
    (hrow : ¬ now < row.expires_at) :
    (ensure_valid_broadcaster_token now (.ok t) b).writes =
      [⟨t.access_token, b.refresh_token, now, t.expires_in.getD 3600, b.broadcaster_id⟩]
    ∧ (get_valid_broadcaster_token now (.ok t) (row :: rest)).table.head? =
        some ⟨row.broadcaster_id, t.access_token, row.refresh_token,
              now + t.expires_in.getD 3600 - 60⟩ := by
  constructor
  · simp [ensure_valid_broadcaster_token, hexp, hnone]
  · simp [get_valid_broadcaster_token, hrow, save_broadcaster_tokens, hnone]

/-- Witness for C3: a concrete expired grant and a refresh response with no
`refresh_token`. -/
theorem refresh_without_rotation_preserves_token_witness :
    (ensure_valid_broadcaster_token 900 (.ok ⟨"na", none, none⟩)
        ⟨"chan", 7, "acc", "oldref", 0, 1000, none, none⟩).writes =
      [⟨"na", "oldref", 900, 3600, "chan"⟩]
    ∧ (get_valid_broadcaster_token 900 (.ok ⟨"na", none, none⟩)
        [⟨"chan", "acc", "oldref", 800⟩]).table.head? =
      some ⟨"chan", "na", "oldref", 900 + 3600 - 60⟩ := by
  exact refresh_without_rotation_preserves_token 900
    ⟨"chan", 7, "acc", "oldref", 0, 1000, none, none⟩ ⟨"na", none, none⟩
    (by norm_num) rfl ⟨"chan", "acc", "oldref", 800⟩ [] (by norm_num)

/-- C9.  A token refresh is a single write carrying the full four-field
tuple: `ensure_valid_broadcaster_token` issues at most one write, and the
grant after its writes has either exactly the old token tuple or exactly the
refreshed one — never a mix; likewise `get_valid_broadcaster_token` leaves
its table unchanged or replaces it by one `save_broadcaster_tokens` call
writing access, refresh and expiry together. -/
theorem refresh_tuple_atomic (now : Int) (rr : Except Unit TokenResponse) (b : Broadcaster) :
    ((ensure_valid_broadcaster_token now rr b).writes = []
       ∨ ∃ w, (ensure_valid_broadcaster_token now rr b).writes = [w])
    ∧ (tokenTuple (grantAfter b (ensure_valid_broadcaster_token now rr b)) = tokenTuple b
       ∨ ∃ t, rr = .ok t ∧
           tokenTuple (grantAfter b (ensure_valid_broadcaster_token now rr b)) =
             (t.access_token, t.refresh_token.getD b.refresh_token, now,
              t.expires_in.getD 3600))
    ∧ (∀ tbl : List BroadcasterTokenRow,
         (get_valid_broadcaster_token now rr tbl).table = tbl
         ∨ ∃ rw t, tbl.head? = some rw ∧ rr = .ok t ∧
             (get_valid_broadcaster_token now rr tbl).table =
               save_broadcaster_tokens now tbl rw.broadcaster_id t.access_token
                 (t.refresh_token.getD rw.refresh_token) (t.expires_in.getD 3600)) := by
  refine ⟨?_, ?_, ?_⟩
  · by_cases h : now < b.token_obtained_at + b.token_expires_in - 120
    · left; simp [ensure_valid_broadcaster_token, h]
    · cases rr with
      | error e => left; simp [ensure_valid_broadcaster_token, h]
      | ok t =>
          right
          refine ⟨⟨t.access_token, t.refresh_token.getD b.refresh_token, now,
            t.expires_in.getD 3600, b.broadcaster_id⟩, ?_⟩
          simp [ensure_valid_broadcaster_token, h]
  · by_cases h : now < b.token_obtained_at + b.token_expires_in - 120
    · left; simp [ensure_valid_broadcaster_token, h, grantAfter]
    · cases rr with
      | error e => left; simp [ensure_valid_broadcaster_token, h, grantAfter]
      | ok t =>
          right
          exact ⟨t, rfl, by
            simp [ensure_valid_broadcaster_token, h, grantAfter, applyTokenWrite, tokenTuple]⟩
  · intro tbl
    cases tbl with
    | nil => left; simp [get_valid_broadcaster_token]
    | cons row rest =>
      by_cases h : now < row.expires_at
      · left; simp [get_valid_broadcaster_token, h]
      · cases rr with
        | error e => left; simp [get_valid_broadcaster_token, h]
        | ok t =>
            right
            exact ⟨row, t, rfl, rfl, by simp [get_valid_broadcaster_token, h]⟩

/-- C4.  A state token is honored only for the purpose it was minted for:
when the stored row for the presented state has purpose `user_link`, the
operator-setup callback answers HTTP 400 with the database unchanged, and
when it has purpose `broadcaster_setup`, the viewer-link callback answers
HTTP 400 with the database unchanged and schedules no subscription check —
so no link or grant is written on a cross-purpose presentation. -/
theorem state_purpose_cross_rejected (db : DB) (s c : String) (row : OAuthState)
    (ex : Except Unit TokenResponse) (idt : Except Unit (Option TwitchUser)) (now : Int)
    (hs : s ≠ "") (hc : c ≠ "")
    (hrow : db.oauth_states.find? (fun r => r.state == s) = some row) :
    (row.purpose = "user_link" →
      twitch_callback_setup db (some s) (some c) ex idt now = ⟨400, db, []⟩)
    ∧ (row.purpose = "broadcaster_setup" →
      twitch_callback_user db (some s) (some c) ex idt now = ⟨400, db, [], none⟩) := by
  constructor
  · intro hp
    simp [twitch_callback_setup, hs, hc, hrow, hp]
  · intro hp
    simp [twitch_callback_user, hs, hc, hrow, hp]

/-- Witness for C4: a viewer-link state presented to the setup callback and
an operator-setup state presented to the viewer callback, both rejected. -/
theorem state_purpose_cross_rejected_witness :
    twitch_callback_setup
        ⟨[], [], [], [⟨"sv", 42, "user_link", 1⟩, ⟨"sb", 7, "broadcaster_setup", 1⟩], [], [], []⟩
        (some "sv") (some "c") (.ok ⟨"a", none, none⟩) (.ok none) 5 =
      ⟨400, ⟨[], [], [], [⟨"sv", 42, "user_link", 1⟩, ⟨"sb", 7, "broadcaster_setup", 1⟩],
             [], [], []⟩, []⟩
    ∧ twitch_callback_user
        ⟨[], [], [], [⟨"sv", 42, "user_link", 1⟩, ⟨"sb", 7, "broadcaster_setup", 1⟩], [], [], []⟩
        (some "sb") (some "c") (.ok ⟨"a", none, none⟩) (.ok none) 5 =
      ⟨400, ⟨[], [], [], [⟨"sv", 42, "user_link", 1⟩, ⟨"sb", 7, "broadcaster_setup", 1⟩],
             [], [], []⟩, [], none⟩ := by
  constructor
  · exact (state_purpose_cross_rejected _ "sv" "c" ⟨"sv", 42, "user_link", 1⟩ _ _ 5
      (by decide) (by decide) (by decide)).1 rfl
  · exact (state_purpose_cross_rejected _ "sb" "c" ⟨"sb", 7, "broadcaster_setup", 1⟩ _ _ 5
      (by decide) (by decide) (by decide)).2 rfl

theorem find?_upsertBroadcaster_self (l : List Broadcaster) (row : Broadcaster) :
    (upsertBroadcaster l row).find? (fun r => r.broadcaster_id == row.broadcaster_id) =
      some row := by
  unfold upsertBroadcaster
  by_cases h : l.any (fun r => r.broadcaster_id == row.broadcaster_id)
  · simp only [h, if_true]
    induction l with
    | nil => simp at h
    | cons hd tl ih =>
      by_cases hh : hd.broadcaster_id == row.broadcaster_id
      · simp [List.find?, hh]
      · have htl : tl.any (fun r => r.broadcaster_id == row.broadcaster_id) := by
          rcases List.any_eq_true.mp h with ⟨x, hx, hpx⟩
          rcases List.mem_cons.mp hx with hx | hx
          · exact absurd (hx ▸ hpx) (by simpa using hh)
          · exact List.any_eq_true.mpr ⟨x, hx, hpx⟩
        simpa [List.find?, hh] using ih htl
  · simp only [h, if_false]
    induction l with
    | nil => simp [List.find?]
    | cons hd tl ih =>
      have hhd : ¬ (hd.broadcaster_id == row.broadcaster_id) := by
        intro hx
        exact h (List.any_eq_true.mpr ⟨hd, List.mem_cons_self _ _, hx⟩)
      have htl : ¬ tl.any (fun r => r.broadcaster_id == row.broadcaster_id) := by
        intro hx
        rcases List.any_eq_true.mp hx with ⟨x, hx', hpx⟩
        exact h (List.any_eq_true.mpr ⟨x, List.mem_cons_of_mem _ hx', hpx⟩)
      simpa [List.find?, hhd] using ih htl

/-- C8.  (1) Completing operator setup for a broadcaster that already has a
stored grant merges: the upserted row keeps the old `group_id` and
`invite_link` while taking the fresh tokens.  (2) A `setgroup` call sets
`group_id` and `invite_link` on the owner's grant and disturbs no grant's
`owner_telegram_id`, `access_token`, `refresh_token`, `token_obtained_at`
or `token_expires_in`. -/
theorem setup_merge_setgroup_frame (db : DB) (s c : String) (row : OAuthState)
    (t : TokenResponse) (me : TwitchUser) (old : Broadcaster) (now : Int)
    (hs : s ≠ "") (hc : c ≠ "")
    (hrow : db.oauth_states.find? (fun r => r.state == s) = some row)
    (hp : row.purpose = "broadcaster_setup")
    (hold : db.broadcasters.find? (fun r => r.broadcaster_id == me.twitch_id) = some old) :
    ((twitch_callback_setup db (some s) (some c) (.ok t) (.ok (some me)) now).db.broadcasters.find?
        (fun r => r.broadcaster_id == me.twitch_id) =
      some ⟨me.twitch_id, row.telegram_id, t.access_token, t.refresh_token.getD "",
            now, t.expires_in.getD 3600, old.group_id, old.invite_link⟩)
    ∧ ∀ (chat_id user_id : Int) (link : String) (b : Broadcaster),
        latestBroadcasterOf db.broadcasters user_id = some b →
        ((setgroup_cmd db chat_id true user_id (.ok link)).db.broadcasters.map
            (fun r => (r.broadcaster_id, r.owner_telegram_id, tokenTuple r)) =
          db.broadcasters.map (fun r => (r.broadcaster_id, r.owner_telegram_id, tokenTuple r)))
        ∧ ∀ r ∈ (setgroup_cmd db chat_id true user_id (.ok link)).db.broadcasters,
            r.broadcaster_id = b.broadcaster_id →
            r.group_id = some chat_id ∧ r.invite_link = some link := by
  constructor
  · have hres :
        (twitch_callback_setup db (some s) (some c) (.ok t) (.ok (some me)) now).db.broadcasters =
          upsertBroadcaster db.broadcasters
            ⟨me.twitch_id, row.telegram_id, t.access_token, t.refresh_token.getD "",
             now, t.expires_in.getD 3600, old.group_id, old.invite_link⟩ := by
      simp [twitch_callback_setup, hs, hc, hrow, hp, hold]
    rw [hres]
    exact find?_upsertBroadcaster_self db.broadcasters
      ⟨me.twitch_id, row.telegram_id, t.access_token, t.refresh_token.getD "",
       now, t.expires_in.getD 3600, old.group_id, old.invite_link⟩
  · intro chat_id user_id link b hb
    have hres : (setgroup_cmd db chat_id true user_id (.ok link)).db.broadcasters =
        db.broadcasters.map (fun r =>
          if r.broadcaster_id == b.broadcaster_id then
            { r with group_id := some chat_id, invite_link := some link }
          else r) := by
      simp [setgroup_cmd, hb]
    constructor
    · rw [hres, List.map_map]
      apply List.map_congr_left
      intro r _
      by_cases hr : r.broadcaster_id == b.broadcaster_id <;>
        simp [Function.comp, hr, tokenTuple]
    · intro r hr hid
      rw [hres] at hr
      rcases List.mem_map.mp hr with ⟨r0, _, hmap⟩
      by_cases h0 : r0.broadcaster_id == b.broadcaster_id
      · rw [if_pos h0] at hmap
        subst hmap
        exact ⟨rfl, rfl⟩
      · rw [if_neg h0] at hmap
        subst hmap
        exact absurd (beq_iff_eq.mpr hid) h0

/-- Witness for C8: a concrete grant bound to group 500 with a cached link
survives a re-setup, and a subsequent `setgroup` from its owner rebinds it
without touching the token fields. -/
theorem setup_merge_setgroup_frame_witness :
    ((twitch_callback_setup
        ⟨[], [], [⟨"chan", 7, "acc", "ref", 100, 1000, some 500, some "lnk"⟩],
         [⟨"sb", 7, "broadcaster_setup", 1⟩], [], [], []⟩
        (some "sb") (some "c") (.ok ⟨"na", some "nr", some 7200⟩)
        (.ok (some ⟨"chan", "log", "disp", none⟩)) 900).db.broadcasters.find?
        (fun r => r.broadcaster_id == "chan") =
      some ⟨"chan", 7, "na", "nr", 900, 7200, some 500, some "lnk"⟩)
    ∧ ((setgroup_cmd
        ⟨[], [], [⟨"chan", 7, "acc", "ref", 100, 1000, some 500, some "lnk"⟩],
         [⟨"sb", 7, "broadcaster_setup", 1⟩], [], [], []⟩
        600 true 7 (.ok "lnk2")).db.broadcasters.map
          (fun r => (r.broadcaster_id, r.owner_telegram_id, tokenTuple r)) =
        [("chan", 7, "acc", "ref", 100, 1000)]) := by
  have h := setup_merge_setgroup_frame
    ⟨[], [], [⟨"chan", 7, "acc", "ref", 100, 1000, some 500, some "lnk"⟩],
     [⟨"sb", 7, "broadcaster_setup", 1⟩], [], [], []⟩
    "sb" "c" ⟨"sb", 7, "broadcaster_setup", 1⟩ ⟨"na", some "nr", some 7200⟩
    ⟨"chan", "log", "disp", none⟩ ⟨"chan", 7, "acc", "ref", 100, 1000, some 500, some "lnk"⟩
    900 (by decide) (by decide) (by decide) rfl (by decide)
  refine ⟨h.1, ?_⟩
  have h2 := (h.2 600 7 "lnk2" ⟨"chan", 7, "acc", "ref", 100, 1000, some 500, some "lnk"⟩
    (by decide)).1
  rw [h2]
  decide

theorem latest_foldl_mem (l : List Broadcaster) :
    ∀ acc r, l.foldl latestStep acc = some r → r ∈ l ∨ acc = some r := by
  induction l with
  | nil => intro acc r h; right; simpa using h
  | cons hd tl ih =>
    intro acc r h
    simp only [List.foldl_cons] at h
    rcases ih (latestStep acc hd) r h with hmem | hacc
    · left; exact List.mem_cons_of_mem _ hmem
    · cases acc with
      | none =>
          left
          have : hd = r := by simpa [latestStep] using hacc
          rw [← this]; exact List.mem_cons_self _ _
      | some m =>
          by_cases hlt : m.token_obtained_at < hd.token_obtained_at
          · left
            have : hd = r := by simpa [latestStep, hlt] using hacc
            rw [← this]; exact List.mem_cons_self _ _
          · right
            simpa [latestStep, hlt] using hacc

theorem latest_foldl_ge (l : List Broadcaster) :
    ∀ acc r, l.foldl latestStep acc = some r →
      (∀ b ∈ l, b.token_obtained_at ≤ r.token_obtained_at)
      ∧ (∀ m, acc = some m → m.token_obtained_at ≤ r.token_obtained_at) := by
  induction l with
  | nil =>
      intro acc r h
      simp only [List.foldl_nil] at h
      refine ⟨fun b hb => absurd hb (List.not_mem_nil b), fun m hm => ?_⟩
      rw [hm] at h
      cases h
      exact le_refl _
  | cons hd tl ih =>
      intro acc r h
      simp only [List.foldl_cons] at h
      have hstep : ∀ m, latestStep acc hd = some m →
          hd.token_obtained_at ≤ m.token_obtained_at ∧
          (∀ m0, acc = some m0 → m0.token_obtained_at ≤ m.token_obtained_at) := by
        intro m hm
        cases acc with
        | none =>
            have heq : hd = m := by simpa [latestStep] using hm
            exact ⟨heq ▸ le_refl _, fun m0 hm0 => by cases hm0⟩
        | some m1 =>
            by_cases hlt : m1.token_obtained_at < hd.token_obtained_at
            · have heq : hd = m := by simpa [latestStep, hlt] using hm
              subst heq
              exact ⟨le_refl _, fun m0 hm0 => by cases hm0; exact le_of_lt hlt⟩
            · have heq : m1 = m := by simpa [latestStep, hlt] using hm
              subst heq
              exact ⟨le_of_not_lt hlt, fun m0 hm0 => by cases hm0; exact le_refl _⟩
      have hsome : ∃ m, latestStep acc hd = some m := by
        cases acc with
        | none => exact ⟨hd, rfl⟩
        | some m1 =>
            by_cases hlt : m1.token_obtained_at < hd.token_obtained_at
            · exact ⟨hd, by simp [latestStep, hlt]⟩
            · exact ⟨m1, by simp [latestStep, hlt]⟩
      rcases hsome with ⟨m, hm⟩
      have ihh := ih (latestStep acc hd) r h
      have hmr : m.token_obtained_at ≤ r.token_obtained_at := ihh.2 m hm
      rcases hstep m hm with ⟨hhd, hacc⟩
      refine ⟨fun b hb => ?_, fun m0 hm0 => le_trans (hacc m0 hm0) hmr⟩
      rcases List.mem_cons.mp hb with hb | hb
      · subst hb; exact le_trans hhd hmr
      · exact ihh.1 b hb

theorem latest_foldl_isSome (l : List Broadcaster) :
    ∀ m, ∃ r, l.foldl latestStep (some m) = some r := by
  induction l with
  | nil => intro m; exact ⟨m, rfl⟩
  | cons hd tl ih =>
      intro m
      simp only [List.foldl_cons]
      by_cases hlt : m.token_obtained_at < hd.token_obtained_at
      · simpa [latestStep, hlt] using ih hd
      · simpa [latestStep, hlt] using ih m

theorem latestBroadcaster_strict_max (l : List Broadcaster) (bstar : Broadcaster)
    (hmem : bstar ∈ l)
    (hmax : ∀ b ∈ l, b ≠ bstar → b.token_obtained_at < bstar.token_obtained_at) :
    latestBroadcaster l = some bstar := by
  cases l with
  | nil => simp at hmem
  | cons hd tl =>
      have hrsome : ∃ r, (hd :: tl).foldl latestStep none = some r := by
        simp only [List.foldl_cons]
        exact latest_foldl_isSome tl hd
      rcases hrsome with ⟨r, hr⟩
      have hrmem : r ∈ hd :: tl := by
        rcases latest_foldl_mem (hd :: tl) none r hr with h | h
        · exact h
        · cases h
      have hge := (latest_foldl_ge (hd :: tl) none r hr).1 bstar hmem
      have hreq : r = bstar := by
        by_contra hne
        exact lt_irrefl _ (lt_of_le_of_lt hge (hmax r hrmem hne))
      rw [latestBroadcaster, hr, hreq]

/-- C10 (implicit).  With several stored grants, the grant with the strictly
greatest `token_obtained_at` is the one selected (`ORDER BY
token_obtained_at DESC LIMIT 1`): the viewer-link callback schedules its
subscription check against exactly that grant, and `checkme` either makes no
check at all or targets that grant, every check it performs naming that
grant's broadcaster — no other stored grant is ever checked on these
paths. -/
theorem latest_grant_selected (db : DB) (bstar : Broadcaster)
    (hmem : bstar ∈ db.broadcasters)
    (hmax : ∀ b ∈ db.broadcasters, b ≠ bstar →
      b.token_obtained_at < bstar.token_obtained_at) :
    latestBroadcaster db.broadcasters = some bstar
    ∧ (∀ (s c : String) (row : OAuthState) (t : TokenResponse) (me : TwitchUser) (now : Int),
        s ≠ "" → c ≠ "" →
        db.oauth_states.find? (fun r => r.state == s) = some row →
        row.purpose = "user_link" →
        (twitch_callback_user db (some s) (some c) (.ok t) (.ok (some me)) now).scheduled_check =
          some (row.telegram_id, me.twitch_id, bstar))
    ∧ (∀ (now : Int) (rr1 rr2 : Except Unit TokenResponse) (oracle : Oracle)
        (mkInvite : Except Unit String) (user_id : Int),
        ((checkme_cmd now rr1 rr2 oracle mkInvite db user_id).target = none ∧
         (checkme_cmd now rr1 rr2 oracle mkInvite db user_id).checks = [])
        ∨ (checkme_cmd now rr1 rr2 oracle mkInvite db user_id).target = some bstar)
    ∧ (∀ (now : Int) (rr1 rr2 : Except Unit TokenResponse) (oracle : Oracle)
        (mkInvite : Except Unit String) (user_id : Int),
        ∀ chk ∈ (checkme_cmd now rr1 rr2 oracle mkInvite db user_id).checks,
          chk.2.1 = bstar.broadcaster_id) := by
  have hlatest : latestBroadcaster db.broadcasters = some bstar :=
    latestBroadcaster_strict_max db.broadcasters bstar hmem hmax
  refine ⟨hlatest, ?_, ?_, ?_⟩
  · intro s c row t me now hs hc hrow hp
    simp [twitch_callback_user, hs, hc, hrow, hp, hlatest]
  · intro now rr1 rr2 oracle mkInvite user_id
    by_cases hl : truthyStr ((db.telegram_users.find?
        (fun r => r.telegram_id == user_id)).bind (fun r => r.linked_twitch_id))
    · right; simp [checkme_cmd, hl, hlatest]
    · left; simp [checkme_cmd, hl]
  · intro now rr1 rr2 oracle mkInvite user_id chk hchk
    by_cases hl : truthyStr ((db.telegram_users.find?
        (fun r => r.telegram_id == user_id)).bind (fun r => r.linked_twitch_id))
    · have hcks : (checkme_cmd now rr1 rr2 oracle mkInvite db user_id).checks =
          (check_and_notify_subscription now rr1 rr2 oracle mkInvite db user_id
            (((db.telegram_users.find? (fun r => r.telegram_id == user_id)).bind
              (fun r => r.linked_twitch_id)).getD "") bstar).checks := by
        simp [checkme_cmd, hl, hlatest]
      rw [hcks] at hchk
      exact check_and_notify_checks_bid now rr1 rr2 oracle mkInvite db user_id _ bstar chk hchk
    · simp [checkme_cmd, hl] at hchk

/-- Witness for C10: two grants obtained at 100 and 200; the viewer callback
schedules its check against the grant obtained at 200. -/
theorem latest_grant_selected_witness :
    latestBroadcaster [⟨"b1", 1, "a1", "r1", 100, 10, none, none⟩,
        ⟨"b2", 2, "a2", "r2", 200, 10, none, none⟩] =
      some ⟨"b2", 2, "a2", "r2", 200, 10, none, none⟩
    ∧ (twitch_callback_user
        ⟨[], [], [⟨"b1", 1, "a1", "r1", 100, 10, none, none⟩,
                  ⟨"b2", 2, "a2", "r2", 200, 10, none, none⟩],
         [⟨"sv", 42, "user_link", 1⟩], [], [], []⟩
        (some "sv") (some "c") (.ok ⟨"na", none, none⟩)
        (.ok (some ⟨"tw", "log", "disp", none⟩)) 5).scheduled_check =
      some (42, "tw", ⟨"b2", 2, "a2", "r2", 200, 10, none, none⟩) := by
  have h := latest_grant_selected
    ⟨[], [], [⟨"b1", 1, "a1", "r1", 100, 10, none, none⟩,
              ⟨"b2", 2, "a2", "r2", 200, 10, none, none⟩],
     [⟨"sv", 42, "user_link", 1⟩], [], [], []⟩
    ⟨"b2", 2, "a2", "r2", 200, 10, none, none⟩ (by decide) (by decide)
  exact ⟨h.1, h.2.1 "sv" "c" ⟨"sv", 42, "user_link", 1⟩ ⟨"na", none, none⟩
    ⟨"tw", "log", "disp", none⟩ 5 (by decide) (by decide) (by decide) rfl⟩

/-! ## Concrete scenarios for the claims the code violates -/

/-- C1 scenario grant: bound to group 100, token well within TTL. -/
def bC1 : Broadcaster := ⟨"chan", 99, "acc", "ref", 1000, 1000000, some 100, some "lnk"⟩

/-- C1 scenario database: group 100 contains chat 1 (privileged, unlinked)
and chat 2 (unlinked, not privileged). -/
def dbC1 : DB :=
  { telegram_users := [⟨1, "u1", "", "", none⟩, ⟨2, "u2", "", "", none⟩]
    twitch_users := []
    broadcasters := [bC1]
    oauth_states := []
    links := []
    group_members := [⟨100, 1, some 10, none⟩, ⟨100, 2, some 10, none⟩]
    privileged := [⟨100, 1, some 99, "mod", 5⟩] }

/-- C1 scenario live statuses: both members are plain group members. -/
def statusesC1 : StatusMap := fun _ => some .member

/-- C1 scenario oracle (never consulted: both members are unlinked). -/
def oracleC1 : Oracle := fun _ _ _ => .ok false

/-- C1.  The claim fails on the code: in a group containing chat 1
(privileged, unlinked) and chat 2 (unlinked, not privileged),
`audit_group_and_kick` raises `NameError` at its first candidate — the
privileged check of line 1026 reads the unbound names `chat`/`uid` — so the
sweep aborts and removes nobody (in particular it does not remove chat 2);
and `auditfull_cmd`, which never consults the `privileged` table, removes
chat 1 as well as chat 2. -/
theorem privileged_member_not_exempted :
    is_privileged dbC1 100 1 = true
    ∧ is_privileged dbC1 100 2 = false
    ∧ audit_group_and_kick 2000 (.ok ⟨"na", none, none⟩) dbC1 bC1 =
        ⟨.error .nameError, dbC1, 0⟩
    ∧ (auditfull_cmd 2000 (.ok ⟨"na", none, none⟩) (.ok ⟨"na", none, none⟩)
         oracleC1 statusesC1 dbC1 100 true).kickedIds = [1, 2] := by
  decide

/-- C5 scenario grant: token nominally well within its TTL at `now = 2000`. -/
def bC5 : Broadcaster := ⟨"chan5", 99, "acc", "ref", 1000, 1000000, some 100, some "lnk"⟩

/-- C5 scenario database holding exactly that grant. -/
def dbC5 : DB := ⟨[], [], [bC5], [], [], [], []⟩

/-- C5 scenario oracle: the subscription endpoint answers 401 for every
token (stale token despite being within TTL — remote revocation). -/
def oracleC5 : Oracle := fun _ _ _ => .error .unauthorized

/-- C5.  The claim fails on the code: on an unauthorized signal,
`check_and_notify_subscription` re-fetches the grant row but then calls
`ensure_valid_broadcaster_token`, which sees the token within its TTL and
returns it *unrefreshed* — zero refresh calls are made and the retry uses
the identical access token; the second unauthorized failure is raised
inside the `except PermissionError` handler, escapes the coroutine uncaught,
and no message reaches the user. -/
theorem unauthorized_retry_skips_refresh :
    ((2000 : Int) < bC5.token_obtained_at + bC5.token_expires_in - 120)
    ∧ check_and_notify_subscription 2000 (.ok ⟨"na", none, none⟩) (.ok ⟨"na", none, none⟩)
        oracleC5 (.ok "lnk") dbC5 42 "tw9" bC5 =
      { db := dbC5, refresh_calls := 0,
        checks := [("acc", "chan5", "tw9"), ("acc", "chan5", "tw9")],
        messages := [], escaped := some .permissionError } := by
  decide

/-- C6 scenario grant. -/
def bC6 : Broadcaster := ⟨"chan6", 99, "acc", "ref", 1000, 1000000, some 100, none⟩

/-- C6 scenario database: group 100 contains chat 3 (linked to Twitch id
`t3`) and chat 2 (unlinked); nobody is privileged. -/
def dbC6 : DB :=
  { telegram_users := [⟨3, "u3", "", "", some "t3"⟩, ⟨2, "u2", "", "", none⟩]
    twitch_users := []
    broadcasters := [bC6]
    oauth_states := []
    links := []
    group_members := [⟨100, 3, some 10, none⟩, ⟨100, 2, some 10, none⟩]
    privileged := [] }

/-- C6.  The claim fails on the code: with a candidate whose subscription
check would report `OracleUnavailable` (chat 3) followed by a removable
candidate (chat 2), `audit_group_and_kick` raises `NameError` at the first
candidate — before any subscription check — so no candidate is skipped-and-
passed-over: processing does not continue to chat 2 and the sweep aborts
with the database unchanged. -/
theorem oracle_unavailable_path_unreachable :
    auditCandidates dbC6 100 = [⟨3, some "t3"⟩, ⟨2, none⟩]
    ∧ audit_group_and_kick 2000 (.ok ⟨"na", none, none⟩) dbC6 bC6 =
        ⟨.error .nameError, dbC6, 0⟩ := by
  decide

/-- C7 scenario grant. -/
def bC7 : Broadcaster := ⟨"chan7", 99, "acc", "ref", 1000, 1000000, some 100, none⟩

/-- C7 scenario database: group 100 contains one unlinked, non-privileged
member, chat 2 — a removal target per the spec. -/
def dbC7 : DB :=
  { telegram_users := [⟨2, "u2", "", "", none⟩]
    twitch_users := []
    broadcasters := [bC7]
    oauth_states := []
    links := []
    group_members := [⟨100, 2, some 10, none⟩]
    privileged := [] }

/-- C7.  The claim's premise fails on the code: the first run of
`audit_group_and_kick` does not remove the lapsed member (it raises
`NameError` at the first candidate and leaves every `left_at` null), the
second run on the unchanged database does exactly the same, and so the
left_at-exclusion mechanism the claim describes never operates — no run
ever removes anyone. -/
theorem sweep_never_removes_members :
    audit_group_and_kick 2000 (.ok ⟨"na", none, none⟩) dbC7 bC7 =
        ⟨.error .nameError, dbC7, 0⟩
    ∧ audit_group_and_kick 2100 (.ok ⟨"na", none, none⟩)
        (audit_group_and_kick 2000 (.ok ⟨"na", none, none⟩) dbC7 bC7).db bC7 =
      ⟨.error .nameError, dbC7, 0⟩
    ∧ ∀ g ∈ (audit_group_and_kick 2000 (.ok ⟨"na", none, none⟩) dbC7 bC7).db.group_members,
        g.left_at = none := by
  decide

end TwitchBot
